import Mathlib

/-!
Shallow embedding of the Devsearch_v2 backend (Django/DRF request handlers) and
proofs about its auth/OTP and messaging behaviour.

Source files embedded:
  apps/accounts/views.py       (RegisterView, LoginView, SendOtpView, VerifyOtpView,
                                PasswordResetRequestView, PasswordResetConfirmView)
  apps/accounts/serializers.py (RegisterSerializer, SendOtpSerializer, VerifyOtpSerializer)
  apps/messaging/views.py      (InboxView, InboxGenericView, ViewMessage, CreateMessage)

The relational store is embedded as explicit lists of rows; each handler is a
pure function from the store and the request data to a response together with
the updated store. Parts of the repository that the handlers call but whose
code is not in the excerpt (the Otp model validity predicate, the email helper
that creates OTP rows, the pagination helper, the UUID validator) are modelled
from the specification and marked as such in their doc comments.
-/

set_option autoImplicit false

/-- A User row: apps/accounts/models.py User (email unique, names, hashed
password, email-verification flag). -/
structure User where
  id : Nat
  email : String
  first_name : String
  last_name : String
  password : String
  is_email_verified : Bool
deriving DecidableEq

/-- An Otp row: belongs to one user, numeric code, creation timestamp. -/
structure Otp where
  userId : Nat
  code : Nat
  createdAt : Nat
deriving DecidableEq

/-- A Profile row (apps/profiles/models.py): per-user public identity used as
message sender and recipient; only its id matters to the handlers embedded
here. -/
structure Profile where
  id : Nat
deriving DecidableEq

/-- A Message row: optional sender profile (null for anonymous), required
recipient profile, subject, body, read flag, creation timestamp. -/
structure Message where
  id : Nat
  senderId : Option Nat
  recipientId : Nat
  subject : String
  body : String
  is_read : Bool
  createdAt : Nat
deriving DecidableEq

/-- The relational store visible to the embedded handlers. -/
structure DB where
  users : List User
  otps : List Otp
  profiles : List Profile
  messages : List Message
deriving DecidableEq

/-- An HTTP response with a flat JSON object body (key-value pairs, in the
order the handler writes them). -/
structure Response where
  status : Nat
  body : List (String × String)
deriving DecidableEq

/-- Modelled from the spec: the Otp validity window. The spec fixes only that
validity is a time-bound predicate of the creation timestamp evaluated at
check time; the concrete length is immaterial to every claim. -/
def OTP_EXPIRY : Nat := 600

/-- Modelled from the spec: Otp.is_valid (apps/accounts/models.py is not in
the excerpt) - a time-bound predicate, true while the validity window since
creation has not elapsed. -/
def Otp.is_valid (o : Otp) (now : Nat) : Bool :=
  now < o.createdAt + OTP_EXPIRY

/-- User.objects.get(email=...) - emails are unique, so the first match is the
row. -/
def findUser (db : DB) (email : String) : Option User :=
  db.users.find? (fun u => u.email == email)

/-- Otp.objects.get(user=user, otp=otp). -/
def findOtp (db : DB) (uid code : Nat) : Option Otp :=
  db.otps.find? (fun o => o.userId == uid && o.code == code)

/-- Otp.objects.filter(user=user).delete() -/
def deleteOtps (db : DB) (uid : Nat) : DB :=
  { db with otps := db.otps.filter (fun o => !(o.userId == uid)) }

/-- Modelled from the spec: SendEmail.send_otp / send_password_reset_otp
(apps/accounts/emails.py is not in the excerpt). Per the spec these create the
new one-time code row for the user and dispatch it by email; the generated
code and the current time are inputs of the model. -/
def sendEmailSendOtp (db : DB) (u : User) (code now : Nat) : DB :=
  { db with otps := db.otps ++ [⟨u.id, code, now⟩] }

/-! ## LoginView (apps/accounts/views.py lines 64-99) -/

/-- The outcome of LoginView.post: either a direct Response, or delegation to
the parent TokenObtainPairView (simplejwt library code, outside the repo)
which issues the access/refresh token pair on credential match. -/
inductive LoginRes where
  | resp (r : Response)
  | tokenPairIssuance (email password : String)
deriving DecidableEq

/-- LoginView.post: look the user up by email; if unverified answer 401 with a
send_otp hint (the password is never inspected on this path); if no such user
answer 404; otherwise delegate to the token-pair issuance of the parent
class. -/
def loginView (db : DB) (email password : String) : LoginRes :=
  match findUser db email with
  | some user =>
      if !user.is_email_verified then
        .resp ⟨401,
          [("message", "Email not verified. Please verify your email before logging in."),
           ("next_action", "send_otp"),
           ("email", user.email)]⟩
      else
        .tokenPairIssuance email password
  | none =>
      .resp ⟨404, [("error", "User does not exist.")]⟩

/-! ## RegisterView (views.py lines 34-61) and RegisterSerializer
(serializers.py lines 8-34) -/

/-- The number of chunks of Python str.split() with no argument: maximal runs
of non-whitespace characters. The accumulator flag records whether the
previous character was inside a chunk. -/
def wsTokenCount : List Char → Bool → Nat
  | [], _ => 0
  | c :: cs, inTok =>
      if c.isWhitespace then wsTokenCount cs false
      else (if inTok then 0 else 1) + wsTokenCount cs true

/-- RegisterSerializer.validate: a first or last name is rejected exactly when
len(name.split()) > 1. -/
def nameRejected (name : String) : Bool :=
  decide (wsTokenCount name.toList false > 1)

/-- Fresh auto-increment primary key for a new User row. It is taken above the
user ids referenced by Otp rows as well, reflecting the foreign-key constraint
that every Otp row points at an existing User row. -/
def freshUserId (db : DB) : Nat :=
  ((db.users.map User.id) ++ db.otps.map Otp.userId).foldr max 0 + 1

/-- RegisterView.post: RegisterSerializer.validate rejects names splitting
into more than one whitespace chunk; the email uniqueness check is the
ModelSerializer validation of the unique email column (modelled from the
spec: the User model is not in the excerpt, the spec fixes email as unique);
on success create_user stores an unverified user and SendEmail.send_otp
issues the verification code. -/
def registerView (db : DB) (first last email password : String) (code now : Nat) :
    Response × DB :=
  if nameRejected first then
    (⟨400, [("first_name", "No spacing allowed")]⟩, db)
  else if nameRejected last then
    (⟨400, [("last_name", "No spacing allowed")]⟩, db)
  else if db.users.any (fun u => u.email == email) then
    (⟨400, [("email", "user with this email already exists.")]⟩, db)
  else
    let user : User := ⟨freshUserId db, email, first, last, password, false⟩
    let db1 : DB := { db with users := db.users ++ [user] }
    let db2 := sendEmailSendOtp db1 user code now
    (⟨201, [("message", "OTP sent for email verification."), ("email", email)]⟩, db2)

/-! ## SendOtpView (views.py lines 102-135) and SendOtpSerializer
(serializers.py lines 36-47) -/

/-- SendOtpView.post: SendOtpSerializer.validate_email first rejects emails
with no matching user (400); the view then repeats the same lookup and has a
404 branch for the no-user case; on success it deletes all previous Otp rows
of the user and SendEmail.send_otp creates and dispatches the new code. -/
def sendOtpView (db : DB) (email : String) (code now : Nat) : Response × DB :=
  match findUser db email with
  | none => (⟨400, [("error", "User with this email does not exist.")]⟩, db)
  | some _ =>
      match findUser db email with
      | none => (⟨404, [("error", "No account is associated with this email.")]⟩, db)
      | some user =>
          let db1 := deleteOtps db user.id
          let db2 := sendEmailSendOtp db1 user code now
          (⟨200, [("message", "OTP sent successfully.")]⟩, db2)

/-! ## VerifyOtpView (views.py lines 138-173) and VerifyOtpSerializer
(serializers.py lines 49-79) -/

/-- user.is_email_verified = True; user.save() -/
def setUserVerified (db : DB) (uid : Nat) : DB :=
  { db with users := db.users.map (fun u =>
      if u.id == uid then { u with is_email_verified := true } else u) }

/-- serializer.save() of ResetPasswordWithOtpSerializer: store the new
password on the user row. -/
def setUserPassword (db : DB) (uid : Nat) (pw : String) : DB :=
  { db with users := db.users.map (fun u =>
      if u.id == uid then { u with password := pw } else u) }

/-- VerifyOtpView.post: VerifyOtpSerializer.validate raises 400 when the user
is unknown, when no Otp row matches (user, code), or when the matched row is
past its validity window (with the request_new_otp hint); only then does the
view run: an already-verified user has the Otp rows cleared and gets a bare
Response whose default status is 200; otherwise the user is marked verified,
the Otp rows are cleared and the welcome email is sent. The view re-runs
User.objects.get(email=email) after serializer success; on the same store it
returns the same row, so the two lookups are collapsed. -/
def verifyOtpView (db : DB) (email : String) (code now : Nat) : Response × DB :=
  match findUser db email with
  | none => (⟨400, [("error", "User with this email does not exist.")]⟩, db)
  | some user =>
      match findOtp db user.id code with
      | none => (⟨400, [("error", "Invalid OTP provided.")]⟩, db)
      | some rec =>
          if !rec.is_valid now then
            (⟨400, [("error", "OTP has expired."),
                    ("next_action", "request_new_otp"),
                    ("request_url", "/api/v1/auth/send-otp/")]⟩, db)
          else if user.is_email_verified then
            (⟨200, [("error", "Email address already verified!")]⟩, deleteOtps db user.id)
          else
            let db1 := setUserVerified db user.id
            let db2 := deleteOtps db1 user.id
            (⟨200, [("message", "Email verified successfully.")]⟩, db2)

/-! ## PasswordResetRequestView (views.py lines 226-254) and
PasswordResetConfirmView (views.py lines 257-289) -/

/-- PasswordResetRequestView.post. Modelled from the spec in one place:
RequestPasswordResetOtpSerializer is not in the excerpt and per the spec
fails when the user is unknown. The view then clears all Otp rows of the
user and SendEmail.send_password_reset_otp creates and dispatches the new
code. -/
def passwordResetRequestView (db : DB) (email : String) (code now : Nat) :
    Response × DB :=
  match findUser db email with
  | none => (⟨400, [("error", "User with this email does not exist.")]⟩, db)
  | some user =>
      let db1 := deleteOtps db user.id
      let db2 := sendEmailSendOtp db1 user code now
      (⟨200, [("message", "OTP sent successfully.")]⟩, db2)

/-- PasswordResetConfirmView.post. Modelled from the spec in one place:
ResetPasswordWithOtpSerializer is not in the excerpt and per the spec
validates the OTP exactly as VerifyOtpSerializer does and on save sets the
new password. The view then clears the Otp rows of the user and sends the
confirmation email. -/
def passwordResetConfirmView (db : DB) (email : String) (code : Nat)
    (newPassword : String) (now : Nat) : Response × DB :=
  match findUser db email with
  | none => (⟨400, [("error", "User with this email does not exist.")]⟩, db)
  | some user =>
      match findOtp db user.id code with
      | none => (⟨400, [("error", "Invalid OTP provided.")]⟩, db)
      | some rec =>
          if !rec.is_valid now then
            (⟨400, [("error", "OTP has expired."),
                    ("next_action", "request_new_otp"),
                    ("request_url", "/api/v1/auth/send-otp/")]⟩, db)
          else
            let db1 := setUserPassword db user.id newPassword
            let db2 := deleteOtps db1 user.id
            (⟨200, [("message", "Your password has been reset, proceed to login.")]⟩, db2)

/-- The empty store. -/
def emptyDB : DB := ⟨[], [], [], []⟩

/-- An unverified user for concrete evaluations. -/
def exUserUnv : User := ⟨1, "unv@x.com", "Jane", "Doe", "pw", false⟩

/-- A verified user for concrete evaluations. -/
def exUserVer : User := ⟨2, "ver@x.com", "John", "Doe", "pw", true⟩

/-- A db holding the unverified and the verified example users. -/
def exDbLogin : DB := ⟨[exUserUnv, exUserVer], [], [], []⟩

/-- C9: the 404 branch of SendOtpView.post is unreachable - whatever the
store and the request, the view never returns the
"No account is associated with this email." response, because
SendOtpSerializer.validate_email already rejected unknown emails. -/
theorem C9_sendotp_404_unreachable (db : DB) (email : String) (code now : Nat) :
    (sendOtpView db email code now).1
      ≠ ⟨404, [("error", "No account is associated with this email.")]⟩ := by
  cases h : findUser db email <;> simp [sendOtpView, h]

/-- C2: when the matching Otp row exists but its validity window has elapsed,
VerifyOtpView fails with the expiry error carrying the request_new_otp hint,
and the store is completely unchanged: the verified flag of the user stays
as it was and the expired Otp row is not deleted. -/
theorem C2_verifyotp_expired (db : DB) (email : String) (code now : Nat)
    (u : User) (r : Otp)
    (hu : findUser db email = some u)
    (hr : findOtp db u.id code = some r)
    (hexp : r.is_valid now = false) :
    verifyOtpView db email code now =
      (⟨400, [("error", "OTP has expired."),
              ("next_action", "request_new_otp"),
              ("request_url", "/api/v1/auth/send-otp/")]⟩, db) := by
  simp [verifyOtpView, hu, hr, hexp]

/-- An unverified user holding an expired OTP (created at 0, checked at time
1000, past the 600-second window). -/
def exDbExpired : DB := ⟨[exUserUnv], [⟨1, 111, 0⟩], [], []⟩

theorem C2_verifyotp_expired_witness :
    verifyOtpView exDbExpired "unv@x.com" 111 1000 =
      (⟨400, [("error", "OTP has expired."),
              ("next_action", "request_new_otp"),
              ("request_url", "/api/v1/auth/send-otp/")]⟩, exDbExpired) :=
  C2_verifyotp_expired exDbExpired "unv@x.com" 111 1000 exUserUnv ⟨1, 111, 0⟩
    (by decide) (by decide) (by decide)

/-- A verified user holding an expired OTP. -/
def exDbVerExpired : DB := ⟨[exUserVer], [⟨2, 222, 0⟩], [], []⟩

/-- C8 counterexample: a VerifyOtp request on an already-verified user whose
stale OTP is expired is answered 400 at serializer validation, not 200 with
an error field, and the remaining Otp row is NOT deleted. -/
theorem C8_already_verified_counterexample :
    exUserVer.is_email_verified = true ∧
    (verifyOtpView exDbVerExpired "ver@x.com" 222 1000).1.status = 400 ∧
    (verifyOtpView exDbVerExpired "ver@x.com" 222 1000).2.otps = [⟨2, 222, 0⟩] := by
  decide

/-- C8 amended: on a VerifyOtp request for an already-verified user that
passes serializer validation (a matching, unexpired Otp row exists), the
handler deletes the Otp rows of that user, answers with a body holding an
error field at the DRF default status 200, and leaves every User row - in
particular the password and the verified flag - unchanged. -/
theorem C8_already_verified_cleanup (db : DB) (email : String) (code now : Nat)
    (u : User) (r : Otp)
    (hu : findUser db email = some u)
    (hver : u.is_email_verified = true)
    (hr : findOtp db u.id code = some r)
    (hval : r.is_valid now = true) :
    verifyOtpView db email code now =
      (⟨200, [("error", "Email address already verified!")]⟩, deleteOtps db u.id) ∧
    (verifyOtpView db email code now).2.users = db.users := by
  constructor
  · simp [verifyOtpView, hu, hr, hval, hver]
  · simp [verifyOtpView, hu, hr, hval, hver, deleteOtps]

/-- A verified user holding a still-valid OTP. -/
def exDbVerValid : DB := ⟨[exUserVer], [⟨2, 333, 0⟩], [], []⟩

theorem C8_already_verified_cleanup_witness :
    verifyOtpView exDbVerValid "ver@x.com" 333 10 =
      (⟨200, [("error", "Email address already verified!")]⟩,
       deleteOtps exDbVerValid 2) ∧
    (verifyOtpView exDbVerValid "ver@x.com" 333 10).2.users = exDbVerValid.users :=
  C8_already_verified_cleanup exDbVerValid "ver@x.com" 333 10 exUserVer ⟨2, 333, 0⟩
    (by decide) (by decide) (by decide) (by decide)

/-- C6 counterexample: the first name "Jane " contains a space character, yet
registration succeeds (status 201) and a user row is created, because Python
str.split() drops leading and trailing whitespace and the name still splits
into a single chunk. -/
theorem C6_space_name_counterexample :
    ("Jane ".toList.contains ' ') = true ∧
    (registerView emptyDB "Jane " "Doe" "jane@x.com" "pw" 111 0).1.status = 201 ∧
    (registerView emptyDB "Jane " "Doe" "jane@x.com" "pw" 111 0).2.users ≠ [] := by
  decide

/-- C6 amended: a registration in which the first or last name has internal
whitespace - it splits into more than one whitespace-separated chunk, which
is what len(name.split()) > 1 tests - fails with a validation error and no
user is created; names whose only whitespace is leading or trailing are not
rejected by this check. -/
theorem C6_internal_space_rejected (db : DB) (first last email password : String)
    (code now : Nat)
    (h : nameRejected first = true ∨ nameRejected last = true) :
    (registerView db first last email password code now).1.status = 400 ∧
    (registerView db first last email password code now).2 = db := by
  cases hf : nameRejected first with
  | true => simp [registerView, hf]
  | false =>
      cases h with
      | inl hl => exact absurd hl (by simp [hf])
      | inr hl => simp [registerView, hf, hl]

theorem C6_internal_space_rejected_witness :
    (registerView emptyDB "Jane Doe" "Doe" "jane@x.com" "pw" 111 0).1.status = 400 ∧
    (registerView emptyDB "Jane Doe" "Doe" "jane@x.com" "pw" 111 0).2 = emptyDB :=
  C6_internal_space_rejected emptyDB "Jane Doe" "Doe" "jane@x.com" "pw" 111 0
    (Or.inl (by decide))

/-! ## The OTP lifecycle as a state machine (claim C1) -/

/-- At most one active OTP per user: the owners of the stored Otp rows are
pairwise distinct. -/
def invOtps (db : DB) : Prop :=
  db.otps.Pairwise (fun a b => a.userId ≠ b.userId)

/-- The requests that touch Otp rows, with the generated code and the clock as
data. -/
inductive Op where
  | register (first last email password : String) (code now : Nat)
  | sendOtp (email : String) (code now : Nat)
  | verifyOtp (email : String) (code now : Nat)
  | pwdResetRequest (email : String) (code now : Nat)
  | pwdResetConfirm (email : String) (code : Nat) (newPassword : String) (now : Nat)

/-- The store after one request (the response is dropped). -/
def step (db : DB) : Op → DB
  | .register f l e p c n => (registerView db f l e p c n).2
  | .sendOtp e c n => (sendOtpView db e c n).2
  | .verifyOtp e c n => (verifyOtpView db e c n).2
  | .pwdResetRequest e c n => (passwordResetRequestView db e c n).2
  | .pwdResetConfirm e c pw n => (passwordResetConfirmView db e c pw n).2

/-- The store after a sequence of requests. -/
def runOps (db : DB) : List Op → DB
  | [] => db
  | op :: rest => runOps (step db op) rest

theorem pairwiseOwners_filter (l : List Otp) (p : Otp → Bool)
    (h : l.Pairwise (fun a b => a.userId ≠ b.userId)) :
    (l.filter p).Pairwise (fun a b => a.userId ≠ b.userId) :=
  List.Pairwise.sublist (List.filter_sublist l) h

theorem pairwiseOwners_append_fresh (l : List Otp) (uid c t : Nat)
    (h : l.Pairwise (fun a b => a.userId ≠ b.userId))
    (hfresh : ∀ o ∈ l, o.userId ≠ uid) :
    (l ++ [(⟨uid, c, t⟩ : Otp)]).Pairwise (fun a b => a.userId ≠ b.userId) := by
  rw [List.pairwise_append]
  refine ⟨h, by simp, fun a ha b hb => ?_⟩
  rcases List.mem_singleton.mp hb with rfl
  exact hfresh a ha

/-- Deleting the Otp rows of a user and then creating one row for that user
keeps the owners pairwise distinct. -/
theorem invOtps_delete_create (db : DB) (u : User) (c n : Nat) (h : invOtps db) :
    invOtps (sendEmailSendOtp (deleteOtps db u.id) u c n) := by
  unfold invOtps
  have hotps : (sendEmailSendOtp (deleteOtps db u.id) u c n).otps
      = db.otps.filter (fun o => !(o.userId == u.id)) ++ [(⟨u.id, c, n⟩ : Otp)] := rfl
  rw [hotps]
  apply pairwiseOwners_append_fresh _ _ _ _ (pairwiseOwners_filter _ _ h)
  intro o ho
  have hmem := List.mem_filter.mp ho
  simpa using hmem.2

theorem le_foldr_max (l : List Nat) : ∀ x ∈ l, x ≤ l.foldr max 0 := by
  induction l with
  | nil => intro x hx; cases hx
  | cons a t ih =>
      intro x hx
      rcases List.mem_cons.mp hx with h | h
      · subst h
        exact le_max_left x (t.foldr max 0)
      · exact le_trans (ih x h) (le_max_right a (t.foldr max 0))

/-- The fresh user id of a registration owns no existing Otp row. -/
theorem freshUserId_not_otp_owner (db : DB) :
    ∀ o ∈ db.otps, o.userId ≠ freshUserId db := by
  intro o ho
  have hmem : o.userId ∈ (db.users.map User.id) ++ db.otps.map Otp.userId :=
    List.mem_append_right _ (List.mem_map_of_mem Otp.userId ho)
  have hle := le_foldr_max _ _ hmem
  unfold freshUserId
  omega

theorem invOtps_register (db : DB) (f l e p : String) (c n : Nat) (h : invOtps db) :
    invOtps (registerView db f l e p c n).2 := by
  by_cases h1 : nameRejected f = true
  · simpa [registerView, h1] using h
  by_cases h2 : nameRejected l = true
  · simpa [registerView, h1, h2] using h
  by_cases h3 : (db.users.any (fun u => u.email == e)) = true
  · simpa [registerView, h1, h2, h3] using h
  have hotps : (registerView db f l e p c n).2.otps
      = db.otps ++ [(⟨freshUserId db, c, n⟩ : Otp)] := by
    simp [registerView, h1, h2, h3, sendEmailSendOtp]
  unfold invOtps
  rw [hotps]
  exact pairwiseOwners_append_fresh _ _ _ _ h (freshUserId_not_otp_owner db)

theorem invOtps_sendOtpView (db : DB) (e : String) (c n : Nat) (h : invOtps db) :
    invOtps (sendOtpView db e c n).2 := by
  cases hu : findUser db e with
  | none => simpa [sendOtpView, hu] using h
  | some u => simpa [sendOtpView, hu] using invOtps_delete_create db u c n h

theorem invOtps_verifyOtpView (db : DB) (e : String) (c n : Nat) (h : invOtps db) :
    invOtps (verifyOtpView db e c n).2 := by
  cases hu : findUser db e with
  | none => simpa [verifyOtpView, hu] using h
  | some u =>
      cases hr : findOtp db u.id c with
      | none => simpa [verifyOtpView, hu, hr] using h
      | some r =>
          rcases Bool.eq_false_or_eq_true (r.is_valid n) with hv | hv
          · rcases Bool.eq_false_or_eq_true u.is_email_verified with hver | hver
            · have hdb : (verifyOtpView db e c n).2 = deleteOtps db u.id := by
                simp [verifyOtpView, hu, hr, hv, hver]
              rw [hdb]
              unfold invOtps deleteOtps
              exact pairwiseOwners_filter _ _ h
            · have hdb : (verifyOtpView db e c n).2
                  = deleteOtps (setUserVerified db u.id) u.id := by
                simp [verifyOtpView, hu, hr, hv, hver]
              rw [hdb]
              unfold invOtps deleteOtps setUserVerified
              exact pairwiseOwners_filter _ _ h
          · simpa [verifyOtpView, hu, hr, hv] using h

theorem invOtps_passwordResetRequestView (db : DB) (e : String) (c n : Nat)
    (h : invOtps db) : invOtps (passwordResetRequestView db e c n).2 := by
  cases hu : findUser db e with
  | none => simpa [passwordResetRequestView, hu] using h
  | some u =>
      simpa [passwordResetRequestView, hu] using invOtps_delete_create db u c n h

theorem invOtps_passwordResetConfirmView (db : DB) (e : String) (c : Nat)
    (pw : String) (n : Nat) (h : invOtps db) :
    invOtps (passwordResetConfirmView db e c pw n).2 := by
  cases hu : findUser db e with
  | none => simpa [passwordResetConfirmView, hu] using h
  | some u =>
      cases hr : findOtp db u.id c with
      | none => simpa [passwordResetConfirmView, hu, hr] using h
      | some r =>
          rcases Bool.eq_false_or_eq_true (r.is_valid n) with hv | hv
          · have hdb : (passwordResetConfirmView db e c pw n).2
                = deleteOtps (setUserPassword db u.id pw) u.id := by
              simp [passwordResetConfirmView, hu, hr, hv]
            rw [hdb]
            unfold invOtps deleteOtps setUserPassword
            exact pairwiseOwners_filter _ _ h
          · simpa [passwordResetConfirmView, hu, hr, hv] using h

/-- Every request preserves the pairwise-distinct-owners invariant. -/
theorem invOtps_step (db : DB) (op : Op) (h : invOtps db) : invOtps (step db op) := by
  cases op with
  | register f l e p c n => exact invOtps_register db f l e p c n h
  | sendOtp e c n => exact invOtps_sendOtpView db e c n h
  | verifyOtp e c n => exact invOtps_verifyOtpView db e c n h
  | pwdResetRequest e c n => exact invOtps_passwordResetRequestView db e c n h
  | pwdResetConfirm e c pw n => exact invOtps_passwordResetConfirmView db e c pw n h

/-- Pairwise distinct owners give at most one row per user id. -/
theorem otp_count_le_one (l : List Otp)
    (h : l.Pairwise (fun a b => a.userId ≠ b.userId)) (uid : Nat) :
    (l.filter (fun o => o.userId == uid)).length ≤ 1 := by
  induction l with
  | nil => simp
  | cons o rest ih =>
      rcases List.pairwise_cons.mp h with ⟨ho, hrest⟩
      by_cases hu : o.userId = uid
      · have hnil : rest.filter (fun x => x.userId == uid) = [] := by
          refine List.filter_eq_nil_iff.mpr fun x hx => ?_
          simp only [beq_iff_eq]
          intro he
          exact ho x hx (by omega)
        simp [List.filter_cons, hu, hnil]
      · simpa [List.filter_cons, hu] using ih hrest

/-- C1: starting from any store whose Otp owners are pairwise distinct, every
sequence of requests keeps them pairwise distinct, hence every user owns at
most one OTP at all times; and on an existing user, SendOtpView and
PasswordResetRequestView first delete every Otp row of the user and only then
append the single new code. -/
theorem C1_at_most_one_otp (db : DB) (ops : List Op) (h : invOtps db) :
    invOtps (runOps db ops) ∧
    (∀ uid, ((runOps db ops).otps.filter (fun o => o.userId == uid)).length ≤ 1) ∧
    (∀ email code now u, findUser db email = some u →
      (sendOtpView db email code now).2.otps
        = db.otps.filter (fun o => !(o.userId == u.id)) ++ [⟨u.id, code, now⟩] ∧
      (passwordResetRequestView db email code now).2.otps
        = db.otps.filter (fun o => !(o.userId == u.id)) ++ [⟨u.id, code, now⟩]) := by
  have hrun : invOtps (runOps db ops) := by
    induction ops generalizing db with
    | nil => exact h
    | cons op rest ih => exact ih _ (invOtps_step db op h)
  refine ⟨hrun, fun uid => otp_count_le_one _ hrun uid, fun email code now u hu => ?_⟩
  constructor
  · simp [sendOtpView, hu, deleteOtps, sendEmailSendOtp]
  · simp [passwordResetRequestView, hu, deleteOtps, sendEmailSendOtp]

/-- A request sequence that issues two OTPs to the same user and one to a
second user. -/
def exOps : List Op :=
  [Op.sendOtp "unv@x.com" 7 0, Op.sendOtp "unv@x.com" 8 1, Op.sendOtp "ver@x.com" 9 2]

theorem C1_at_most_one_otp_witness :
    invOtps (runOps exDbLogin exOps) ∧
    ((runOps exDbLogin exOps).otps.filter (fun o => o.userId == 1)).length ≤ 1 ∧
    (sendOtpView exDbLogin "unv@x.com" 7 0).2.otps
      = exDbLogin.otps.filter (fun o => !(o.userId == 1)) ++ [⟨1, 7, 0⟩] := by
  have hinv : invOtps exDbLogin := by
    unfold invOtps exDbLogin
    exact List.Pairwise.nil
  have h := C1_at_most_one_otp exDbLogin exOps hinv
  have hfind : findUser exDbLogin "unv@x.com" = some exUserUnv := by decide
  exact ⟨h.1, h.2.1 1, (h.2.2 "unv@x.com" 7 0 exUserUnv hfind).1⟩

/-- C3: login on an unverified user returns 401 with next_action send_otp and
the email, for every password; login on an unknown email returns 404; only a
verified user reaches token-pair issuance. -/
theorem C3_login_gating (db : DB) (email password : String) :
    (∀ u, findUser db email = some u → u.is_email_verified = false →
      loginView db email password = .resp ⟨401,
        [("message", "Email not verified. Please verify your email before logging in."),
         ("next_action", "send_otp"),
         ("email", u.email)]⟩) ∧
    (findUser db email = none →
      loginView db email password = .resp ⟨404, [("error", "User does not exist.")]⟩) ∧
    (∀ u, findUser db email = some u → u.is_email_verified = true →
      loginView db email password = .tokenPairIssuance email password) := by
  refine ⟨fun u hu hv => ?_, fun hn => ?_, fun u hu hv => ?_⟩
  · simp [loginView, hu, hv]
  · simp [loginView, hn]
  · simp [loginView, hu, hv]

theorem C3_login_gating_witness :
    loginView exDbLogin "unv@x.com" "any-password" = .resp ⟨401,
      [("message", "Email not verified. Please verify your email before logging in."),
       ("next_action", "send_otp"),
       ("email", "unv@x.com")]⟩ ∧
    loginView exDbLogin "nobody@x.com" "pw" = .resp ⟨404, [("error", "User does not exist.")]⟩ ∧
    loginView exDbLogin "ver@x.com" "pw" = .tokenPairIssuance "ver@x.com" "pw" :=
  ⟨(C3_login_gating exDbLogin "unv@x.com" "any-password").1 exUserUnv (by decide) (by decide),
   (C3_login_gating exDbLogin "nobody@x.com" "pw").2.1 (by decide),
   (C3_login_gating exDbLogin "ver@x.com" "pw").2.2 exUserVer (by decide) (by decide)⟩

/-! ## Messaging (apps/messaging/views.py) -/

/-- A path id as received, before UUID validation. Modelled from the spec:
validate_uuid (apps/accounts/validators.py is not in the excerpt) is a pure
format check on the id string; `malformed` stands for exactly the ids it
rejects, `valid` carries a well-formed id. Each handler raises Http404 on the
malformed case first, mirroring the `if not validate_uuid(id)` guard. -/
inductive RawId where
  | malformed
  | valid (id : Nat)
deriving DecidableEq

/-- The outcome of ViewMessage.get. -/
inductive ViewMsgRes where
  | http404 (detail : String)
  | resp (r : Response)
  | ok (m : Message)
deriving DecidableEq

/-- request.user.profile.messages.get(id=id): the message with this id whose
recipient is the profile. -/
def findOwnMessage (db : DB) (pid mid : Nat) : Option Message :=
  db.messages.find? (fun m => m.recipientId == pid && m.id == mid)

/-- message.is_read = True; message.save(): update the row with this primary
key. -/
def markRead (l : List Message) (mid : Nat) : List Message :=
  l.map (fun x => if x.id == mid then { x with is_read := true } else x)

/-- ViewMessage.get: Http404 on a malformed id; 404 response when no message
with that id is owned (as recipient) by the profile; otherwise return the
message, first flipping its read flag if it was unread. -/
def viewMessage (db : DB) (p : Profile) (rid : RawId) : ViewMsgRes × DB :=
  match rid with
  | .malformed => (.http404 "Invalid message ID", db)
  | .valid mid =>
      match findOwnMessage db p.id mid with
      | none => (.resp ⟨404, [("error", "Message not found.")]⟩, db)
      | some m =>
          if !m.is_read then
            (.ok { m with is_read := true },
             { db with messages := markRead db.messages m.id })
          else
            (.ok m, db)

/-- The outcome of CreateMessage.post (a created message is answered with
status 201). -/
inductive CreateMsgRes where
  | http404 (detail : String)
  | validationError (detail : String)
  | created (m : Message)
deriving DecidableEq

/-- Fresh primary key for a new Message row. -/
def freshMessageId (db : DB) : Nat :=
  (db.messages.map Message.id).foldr max 0 + 1

/-- CreateMessage.post: Http404 on a malformed profile id or an unknown
recipient profile; the sender is the caller profile when authenticated and
null otherwise; the self-message guard `if sender and sender.id ==
recipient.id` only fires on a non-null sender; otherwise the message is
stored with the (possibly null) sender. -/
def createMessage (db : DB) (caller : Option Profile) (rid : RawId)
    (subject body : String) (now : Nat) : CreateMsgRes × DB :=
  match rid with
  | .malformed => (.http404 "Invalid profile id", db)
  | .valid pid =>
      match db.profiles.find? (fun x => x.id == pid) with
      | none => (.http404 "Profile not found.", db)
      | some recipient =>
          if (match caller with
              | some s => s.id == recipient.id
              | none => false) then
            (.validationError "You cannot message yourself.", db)
          else
            let m : Message := ⟨freshMessageId db, caller.map Profile.id,
                                recipient.id, subject, body, false, now⟩
            (.created m, { db with messages := db.messages ++ [m] })

/-- C7: an authenticated caller whose own profile id equals the recipient
profile id is rejected with the self-message validation error and the store
is unchanged. -/
theorem C7_self_message_rejected (db : DB) (p : Profile) (pid : Nat)
    (subject body : String) (now : Nat) (r : Profile)
    (hr : db.profiles.find? (fun x => x.id == pid) = some r)
    (hself : p.id = r.id) :
    createMessage db (some p) (.valid pid) subject body now
      = (.validationError "You cannot message yourself.", db) := by
  simp [createMessage, hr, hself]

/-- A profile pair and a store for concrete messaging evaluations. -/
def exProfileA : Profile := ⟨10⟩

def exProfileB : Profile := ⟨11⟩

def exDbMsg : DB := ⟨[], [], [exProfileA, exProfileB], []⟩

theorem C7_self_message_rejected_witness :
    createMessage exDbMsg (some exProfileA) (.valid 10) "hi" "there" 0
      = (.validationError "You cannot message yourself.", exDbMsg) :=
  C7_self_message_rejected exDbMsg exProfileA 10 "hi" "there" 0 exProfileA
    (by decide) rfl

/-- C10: an unauthenticated CreateMessage stores a null sender whenever the
recipient exists, and the self-message rejection can never fire for it,
whatever the requested recipient id. -/
theorem C10_anonymous_never_self_rejected (db : DB) (rid : RawId)
    (subject body : String) (now : Nat) :
    (∀ pid r, db.profiles.find? (fun x => x.id == pid) = some r →
      createMessage db none (.valid pid) subject body now
        = (.created ⟨freshMessageId db, none, r.id, subject, body, false, now⟩,
           { db with messages :=
              db.messages ++ [⟨freshMessageId db, none, r.id, subject, body, false, now⟩] })) ∧
    (∀ d, (createMessage db none rid subject body now).1 ≠ .validationError d) := by
  constructor
  · intro pid r hr
    simp [createMessage, hr]
  · intro d
    cases rid with
    | malformed => simp [createMessage]
    | valid pid =>
        cases hr : db.profiles.find? (fun x => x.id == pid) with
        | none => simp [createMessage, hr]
        | some r => simp [createMessage, hr]

theorem C10_anonymous_never_self_rejected_witness :
    createMessage exDbMsg none (.valid 10) "hi" "there" 0
      = (.created ⟨1, none, 10, "hi", "there", false, 0⟩,
         { exDbMsg with messages := [⟨1, none, 10, "hi", "there", false, 0⟩] }) ∧
    (createMessage exDbMsg none (.valid 10) "hi" "there" 0).1
      ≠ .validationError "You cannot message yourself." :=
  ⟨(C10_anonymous_never_self_rejected exDbMsg (.valid 10) "hi" "there" 0).1
      10 exProfileA (by decide),
   (C10_anonymous_never_self_rejected exDbMsg (.valid 10) "hi" "there" 0).2
      "You cannot message yourself."⟩

/-! ## InboxView (views.py lines 29-70) and InboxGenericView (lines 73-138) -/

/-- Modelled from the spec: CustomPagination (apps/common/pagination.py is not
in the excerpt) cuts the queryset into pages of a fixed size with 1-based page
numbers and reports per_page/current_page/last_page metadata; this is the
slice it hands back for the requested page. -/
def paginate (l : List Message) (page size : Nat) : List Message :=
  (l.drop ((page - 1) * size)).take size

/-- Last page number of the paginator metadata (ceiling division). -/
def lastPage (total size : Nat) : Nat :=
  (total + size - 1) / size

/-- The number of unread messages of a recipient profile over the whole
store. -/
def unreadCount (db : DB) (pid : Nat) : Nat :=
  (db.messages.filter (fun m => m.recipientId == pid && !m.is_read)).length

/-- The response body of InboxView.get. -/
structure InboxViewBody where
  count : Nat
  results : List Message
  unread_count : Nat
  per_page : Nat
  current_page : Nat
  last_page : Nat
deriving DecidableEq

/-- InboxView.get: filters the messages to the recipient profile, runs the
paginator (page size 10) for the next/previous/per_page/current_page/
last_page metadata, but passes the FULL queryset - not the page slice - to
the serializer, so results holds every message of the recipient; the unread
count is computed on the full queryset. -/
def inboxView (db : DB) (p : Profile) (page : Nat) : InboxViewBody :=
  let messages := db.messages.filter (fun m => m.recipientId == p.id)
  { count := messages.length
    results := messages
    unread_count := (messages.filter (fun m => !m.is_read)).length
    per_page := 10
    current_page := page
    last_page := lastPage messages.length 10 }

/-- Lowercased characters of a string, for the case-insensitive icontains
lookup of the search filter. -/
def lowerChars (s : String) : List Char :=
  s.toList.map Char.toLower

/-- needle occurs as a contiguous run inside hay. -/
def containsSub (hay needle : List Char) : Bool :=
  hay.tails.any (fun t => needle.isPrefixOf t)

/-- Case-insensitive substring test (the icontains lookup behind DRF
SearchFilter). -/
def icontains (hay needle : String) : Bool :=
  containsSub (lowerChars hay) (lowerChars needle)

/-- SearchFilter with search_fields subject and body: keep the messages whose
subject or body contains the search term; no term keeps the queryset. -/
def searchFilter (l : List Message) (search : Option String) : List Message :=
  match search with
  | none => l
  | some s => l.filter (fun m => icontains m.subject s || icontains m.body s)

/-- The response body of InboxGenericView.list. -/
structure InboxGenericBody where
  results : List Message
  unread_count : Nat
deriving DecidableEq

/-- InboxGenericView.list: the queryset is the messages of the recipient with the
search filter applied; results is the requested page of it; unread_count is
computed on a fresh get_queryset() call, so it ignores both the search term
and the pagination. -/
def inboxGenericList (db : DB) (p : Profile) (search : Option String)
    (page size : Nat) : InboxGenericBody :=
  let queryset := searchFilter (db.messages.filter (fun m => m.recipientId == p.id)) search
  { results := paginate queryset page size
    unread_count :=
      ((db.messages.filter (fun m => m.recipientId == p.id)).filter
        (fun m => !m.is_read)).length }

/-- Eleven messages addressed to profile 20. -/
def exMsgs11 : List Message :=
  (List.range 11).map (fun i => ⟨100 + i, none, 20, "s", "b", false, i⟩)

/-- A store whose only inbox holds eleven messages, one more than the page
size of InboxView. -/
def exDbInbox : DB := ⟨[], [], [⟨20⟩], exMsgs11⟩

/-- C5 counterexample: on an inbox of eleven messages, InboxView.get reports
per_page 10 for page 1 yet returns all eleven messages in results - the
returned results are not restricted to the requested page. -/
theorem C5_inbox_counterexample :
    (inboxView exDbInbox ⟨20⟩ 1).per_page = 10 ∧
    (inboxView exDbInbox ⟨20⟩ 1).results.length = 11 := by
  constructor
  · rfl
  · rfl

theorem filter_filter_messages (l : List Message) (p q : Message → Bool) :
    (l.filter p).filter q = l.filter (fun m => p m && q m) := by
  induction l with
  | nil => rfl
  | cons a t ih =>
      cases hp : p a <;> cases hq : q a <;>
        simp [List.filter_cons, hp, hq, ih]

theorem paginate_subset (l : List Message) (page size : Nat) :
    ∀ m ∈ paginate l page size, m ∈ l := by
  intro m hm
  exact List.drop_subset _ _ (List.take_subset _ _ hm)

theorem searchFilter_subset (l : List Message) (s : Option String) :
    ∀ m ∈ searchFilter l s, m ∈ l := by
  intro m hm
  cases s with
  | none => exact hm
  | some str => exact (List.mem_filter.mp hm).1

/-- C5 amended: InboxGenericView returns only messages addressed to the caller
profile, restricted to the requested page (at most the page size), and its
unread count equals the unread count of the whole inbox, independent of
search and page; InboxView computes the same whole-inbox unread count and
also returns only messages of the caller profile, but its results are the full list
rather than the requested page. -/
theorem C5_inbox_page_and_unread (db : DB) (p : Profile) (search : Option String)
    (page size : Nat) :
    (∀ m ∈ (inboxGenericList db p search page size).results, m.recipientId = p.id) ∧
    (inboxGenericList db p search page size).results.length ≤ size ∧
    (inboxGenericList db p search page size).unread_count = unreadCount db p.id ∧
    (inboxView db p page).unread_count = unreadCount db p.id ∧
    (∀ m ∈ (inboxView db p page).results, m.recipientId = p.id) := by
  refine ⟨fun m hm => ?_, ?_, ?_, ?_, fun m hm => ?_⟩
  · have h1 := paginate_subset _ page size m hm
    have h2 := searchFilter_subset _ search m h1
    have h3 := List.mem_filter.mp h2
    simpa using h3.2
  · have : (paginate (searchFilter
        (db.messages.filter (fun m => m.recipientId == p.id)) search) page size).length
        ≤ size := by
      unfold paginate
      exact List.length_take_le _ _
    simpa [inboxGenericList] using this
  · show ((db.messages.filter (fun m => m.recipientId == p.id)).filter
        (fun m => !m.is_read)).length = unreadCount db p.id
    rw [filter_filter_messages]
    rfl
  · show ((db.messages.filter (fun m => m.recipientId == p.id)).filter
        (fun m => !m.is_read)).length = unreadCount db p.id
    rw [filter_filter_messages]
    rfl
  · have h3 := List.mem_filter.mp hm
    simpa using h3.2

theorem C5_inbox_page_and_unread_witness :
    (⟨100, none, 20, "s", "b", false, 0⟩ : Message).recipientId = (⟨20⟩ : Profile).id ∧
    (inboxGenericList exDbInbox ⟨20⟩ none 1 10).results.length ≤ 10 ∧
    (inboxGenericList exDbInbox ⟨20⟩ none 1 10).unread_count = unreadCount exDbInbox 20 :=
  ⟨(C5_inbox_page_and_unread exDbInbox ⟨20⟩ none 1 10).1
      ⟨100, none, 20, "s", "b", false, 0⟩ (by decide),
   (C5_inbox_page_and_unread exDbInbox ⟨20⟩ none 1 10).2.1,
   (C5_inbox_page_and_unread exDbInbox ⟨20⟩ none 1 10).2.2.1⟩

/-! ## ViewMessage idempotence (claim C4) -/

theorem markRead_eq_self (l : List Message) (mid : Nat)
    (h : ∀ x ∈ l, x.id ≠ mid) : markRead l mid = l := by
  induction l with
  | nil => rfl
  | cons a t ih =>
      have ha : (a.id == mid) = false :=
        beq_eq_false_iff_ne.mpr (h a (List.mem_cons_self a t))
      have ht : markRead t mid = t :=
        ih (fun x hx => h x (List.mem_cons_of_mem a hx))
      show (if a.id == mid then { a with is_read := true } else a) :: markRead t mid
          = a :: t
      simp [ha, ht]

/-- After the read flag of the found message is saved, looking the same
message up again returns it with the flag set (primary keys are unique). -/
theorem find_markRead (l : List Message) (pid mid : Nat) (m : Message)
    (hnd : (l.map Message.id).Nodup)
    (hm : l.find? (fun x => x.recipientId == pid && x.id == mid) = some m) :
    (markRead l mid).find? (fun x => x.recipientId == pid && x.id == mid)
      = some { m with is_read := true } := by
  induction l with
  | nil => simp at hm
  | cons a t ih =>
      rw [List.map_cons, List.nodup_cons] at hnd
      cases ha : (a.recipientId == pid && a.id == mid) with
      | true =>
          simp only [List.find?_cons, ha] at hm
          injection hm with hma
          subst hma
          have haid : (a.id == mid) = true := by
            have ha' := ha
            simp only [Bool.and_eq_true] at ha'
            exact ha'.2
          have hhead : markRead (a :: t) mid
              = { a with is_read := true } :: markRead t mid := by
            show (if a.id == mid then { a with is_read := true } else a) :: markRead t mid = _
            rw [if_pos haid]
          rw [hhead]
          simp [List.find?_cons, ha]
      | false =>
          simp only [List.find?_cons, ha] at hm
          have hpm := List.find?_some hm
          simp only [Bool.and_eq_true, beq_iff_eq] at hpm
          have hmemt : m ∈ t := List.mem_of_find?_eq_some hm
          have hmid : m.id = mid := hpm.2
          cases hb : (a.id == mid) with
          | true =>
              exfalso
              have hba : a.id = mid := by simpa using hb
              apply hnd.1
              rw [hba, ← hmid]
              exact List.mem_map_of_mem Message.id hmemt
          | false =>
              have hhead : markRead (a :: t) mid = a :: markRead t mid := by
                show (if a.id == mid then { a with is_read := true } else a)
                    :: markRead t mid = _
                rw [if_neg (by simp [hb])]
              rw [hhead]
              simp only [List.find?_cons, ha]
              exact ih hnd.2 hm

/-- Saving the read flag of an unread message of the recipient lowers the
unread count by exactly one (primary keys are unique). -/
theorem unread_markRead (l : List Message) (pid mid : Nat) (m : Message)
    (hnd : (l.map Message.id).Nodup)
    (hmem : m ∈ l) (hmid : m.id = mid) (hrec : m.recipientId = pid)
    (hunread : m.is_read = false) :
    ((markRead l mid).filter (fun x => x.recipientId == pid && !x.is_read)).length + 1
      = (l.filter (fun x => x.recipientId == pid && !x.is_read)).length := by
  induction l with
  | nil => cases hmem
  | cons a t ih =>
      rw [List.map_cons, List.nodup_cons] at hnd
      cases hb : (a.id == mid) with
      | true =>
          have hba : a.id = mid := by simpa using hb
          have ham : a = m := by
            rcases List.mem_cons.mp hmem with h | h
            · exact h.symm
            · exfalso
              apply hnd.1
              rw [hba, ← hmid]
              exact List.mem_map_of_mem Message.id h
          subst ham
          have hmark : markRead t mid = t := by
            apply markRead_eq_self
            intro x hx he
            apply hnd.1
            rw [hba, ← he]
            exact List.mem_map_of_mem Message.id hx
          have hhead : markRead (a :: t) mid = { a with is_read := true } :: t := by
            show (if a.id == mid then { a with is_read := true } else a)
                :: markRead t mid = _
            rw [if_pos hb, hmark]
          rw [hhead]
          simp [List.filter_cons, hrec, hunread]
      | false =>
          have hmt : m ∈ t := by
            rcases List.mem_cons.mp hmem with h | h
            · exfalso
              subst h
              simp [hmid] at hb
            · exact h
          have hhead : markRead (a :: t) mid = a :: markRead t mid := by
            show (if a.id == mid then { a with is_read := true } else a)
                :: markRead t mid = _
            rw [if_neg (by simp [hb])]
          rw [hhead]
          have hrest := ih hnd.2 hmt
          cases hpa : (a.recipientId == pid && !a.is_read) with
          | true =>
              simp only [List.filter_cons, hpa, if_true, List.length_cons]
              omega
          | false =>
              simp only [List.filter_cons, hpa]
              simpa using hrest

/-- C4: on an unread message owned by the profile (with unique message
primary keys), the first retrieval returns the message with the read flag
set and stores exactly that flag flip; the unread count of the inbox drops
by exactly one; and retrieving the same message again returns the same data
and leaves the store completely unchanged. -/
theorem C4_view_message_idempotent (db : DB) (p : Profile) (m : Message)
    (hnd : (db.messages.map Message.id).Nodup)
    (hm : findOwnMessage db p.id m.id = some m)
    (hunread : m.is_read = false) :
    viewMessage db p (.valid m.id)
      = (.ok { m with is_read := true },
         { db with messages := markRead db.messages m.id }) ∧
    unreadCount (viewMessage db p (.valid m.id)).2 p.id + 1 = unreadCount db p.id ∧
    viewMessage (viewMessage db p (.valid m.id)).2 p (.valid m.id)
      = (.ok { m with is_read := true }, (viewMessage db p (.valid m.id)).2) := by
  have hm' : db.messages.find? (fun x => x.recipientId == p.id && x.id == m.id)
      = some m := hm
  have hfirst : viewMessage db p (.valid m.id)
      = (.ok { m with is_read := true },
         { db with messages := markRead db.messages m.id }) := by
    simp [viewMessage, hm, hunread]
  have hpm := List.find?_some hm'
  simp only [Bool.and_eq_true, beq_iff_eq] at hpm
  have hprec : m.recipientId = p.id := hpm.1
  have hmem : m ∈ db.messages := List.mem_of_find?_eq_some hm'
  refine ⟨hfirst, ?_, ?_⟩
  · rw [hfirst]
    show ((markRead db.messages m.id).filter
        (fun x => x.recipientId == p.id && !x.is_read)).length + 1
      = (db.messages.filter (fun x => x.recipientId == p.id && !x.is_read)).length
    exact unread_markRead db.messages p.id m.id m hnd hmem rfl hprec hunread
  · rw [hfirst]
    have hfind2 : findOwnMessage { db with messages := markRead db.messages m.id }
        p.id m.id = some { m with is_read := true } :=
      find_markRead db.messages p.id m.id m hnd hm'
    simp [viewMessage, hfind2]

/-- An unread message of profile 20 in a one-message store. -/
def exMsgUnread : Message := ⟨100, none, 20, "s", "b", false, 0⟩

def exDbView : DB := ⟨[], [], [⟨20⟩], [exMsgUnread]⟩

theorem C4_view_message_idempotent_witness :
    viewMessage exDbView ⟨20⟩ (.valid exMsgUnread.id)
      = (.ok { exMsgUnread with is_read := true },
         { exDbView with messages := markRead exDbView.messages exMsgUnread.id }) ∧
    unreadCount (viewMessage exDbView ⟨20⟩ (.valid exMsgUnread.id)).2
        (⟨20⟩ : Profile).id + 1
      = unreadCount exDbView (⟨20⟩ : Profile).id :=
  ⟨(C4_view_message_idempotent exDbView ⟨20⟩ exMsgUnread (by decide) (by decide) rfl).1,
   (C4_view_message_idempotent exDbView ⟨20⟩ exMsgUnread (by decide) (by decide) rfl).2.1⟩
